import Mathlib

/-!
Verification of the drivent hotels path: a shallow embedding of the hotels
service (`src/services/hotels-service/index.ts`), the hotel repository
(`src/repositories/hotel-repository/index.ts`) and the HTTP controllers
(`src/controllers/hotels-controller.ts`), together with theorems settling the
specified properties of `getHotels` and `getHotelRooms`.

The persistence store is modelled as explicit state threaded through every
operation; each repository read returns the store unchanged, which is exactly
what a prisma read does.
-/

/-- Ticket payment status (`TicketStatus` from the prisma client): a ticket is
either reserved (pending) or paid. -/
inductive TicketStatus where
  | RESERVED
  | PAID
  deriving DecidableEq, Repr

/-- An enrollment record: belongs to exactly one user, identified by an id. -/
structure Enrollment where
  id : Int
  userId : Int
  deriving DecidableEq, Repr

/-- A ticket type: carries the two boolean flags consulted by the eligibility
check. -/
structure TicketType where
  id : Int
  isRemote : Bool
  includesHotel : Bool
  deriving DecidableEq, Repr

/-- A ticket as returned by the ticket repository with its ticket type
included (`ticket.TicketType` in the service): belongs to one enrollment and
has a payment status. -/
structure Ticket where
  id : Int
  enrollmentId : Int
  status : TicketStatus
  TicketType : TicketType
  deriving DecidableEq, Repr

/-- A hotel record as returned by `prisma.hotel.findMany()`. -/
structure Hotel where
  id : Int
  name : String
  image : String
  deriving DecidableEq, Repr

/-- A room record; each room belongs to exactly one hotel via `hotelId`. -/
structure Room where
  id : Int
  name : String
  capacity : Int
  hotelId : Int
  deriving DecidableEq, Repr

/-- A hotel together with its rooms, as returned by
`prisma.hotel.findMany({ where: { id }, include: { Rooms: true } })`. -/
structure HotelWithRooms where
  id : Int
  name : String
  image : String
  Rooms : List Room
  deriving DecidableEq, Repr

/-- The persistence store: the tables the hotels path reads. Tickets are
stored with their ticket type included, which is the shape the ticket
repository returns to the service. -/
structure Store where
  enrollments : List Enrollment
  tickets : List Ticket
  hotels : List Hotel
  rooms : List Room
  deriving DecidableEq, Repr

/-- An application error as consumed by the controllers, which dispatch on
`error.name`. -/
structure ApplicationError where
  name : String
  message : String
  deriving DecidableEq, Repr

/-- Modelled from the spec: `notFoundError()` from the errors module (not among
the hotels sources) builds the NotFound domain error; the controllers
recognise it by the name `NotFoundError`. -/
def notFoundError : ApplicationError :=
  { name := "NotFoundError", message := "No result for this search!" }

/-- Modelled from the spec: `paymentRequiredError()` from the errors module
builds the PaymentRequired domain error; the controllers recognise it by the
name `PaymentRequiredError`. -/
def paymentRequiredError : ApplicationError :=
  { name := "PaymentRequiredError", message := "Payment required!" }

/-- Modelled from the spec: `enrollmentRepository.findWithAddressByUserId`
(the enrollment repository is not among the hotels sources): given a user
identifier, returns the user enrollment record or nothing. A database read
leaves the store unchanged. -/
def findWithAddressByUserId (s : Store) (userId : Int) : Option Enrollment × Store :=
  (s.enrollments.find? (fun e => e.userId == userId), s)

/-- Modelled from the spec: `ticketRepository.findTicketByEnrollmentId` (the
ticket repository is not among the hotels sources): given an enrollment
identifier, returns the associated ticket with its ticket type, or nothing. -/
def findTicketByEnrollmentId (s : Store) (enrollmentId : Int) : Option Ticket × Store :=
  (s.tickets.find? (fun t => t.enrollmentId == enrollmentId), s)

/-- `hotelRepository.findHotels`: `prisma.hotel.findMany()` returns every
hotel record; a read leaves the store unchanged. -/
def findHotels (s : Store) : List Hotel × Store :=
  (s.hotels, s)

/-- A JavaScript number as produced by the `Number` coercion: either an actual
numeric value or `NaN`. -/
inductive JsNum where
  | nan
  | num (n : Int)
  deriving DecidableEq, Repr

/-- Equality test of a JavaScript number against a stored integer id, as in a
prisma `where: { id }` clause: `NaN` matches no record. -/
def numMatches : JsNum → Int → Bool
  | JsNum.nan, _ => false
  | JsNum.num n, m => n == m

/-- Accumulating decimal value of a digit list. -/
def digitsVal : List Char → Nat → Nat
  | [], acc => acc
  | c :: cs, acc => digitsVal cs (acc * 10 + (c.toNat - 48))

/-- Model of the JavaScript `Number` coercion as applied to the route
parameter: a nonempty string of decimal digits denotes its numeric value, and
any other string is coerced to `NaN`, the sentinel that matches no record. -/
def jsNumber (str : String) : JsNum :=
  let cs := str.toList
  if cs.length != 0 && cs.all Char.isDigit then JsNum.num (digitsVal cs 0)
  else JsNum.nan

/-- `hotelRepository.findHotelRooms`: `prisma.hotel.findMany` restricted by
`where: { id }` with `include: { Rooms: true }` — the hotels whose id matches
the argument, each carrying the rooms whose `hotelId` foreign key points at
it. A read leaves the store unchanged. -/
def findHotelRooms (s : Store) (id : JsNum) : List HotelWithRooms × Store :=
  ((s.hotels.filter (fun h => numMatches id h.id)).map
    (fun h =>
      { id := h.id, name := h.name, image := h.image,
        Rooms := s.rooms.filter (fun r => r.hotelId == h.id) }), s)

/-- JavaScript logical negation applied to an array value: arrays, the empty
array included, are truthy, so `!arr` evaluates to `false` whenever `arr` is
an array (and `prisma.findMany` always returns an array). -/
def jsNotArray {α : Type} (xs : List α) : Bool := false

/-- The service `getHotels(userId)`: look up the enrollment, then the ticket,
check payment eligibility, then fetch all hotels, with the source check
`if (!hotels)` on the fetched array. -/
def getHotels (s : Store) (userId : Int) :
    Except ApplicationError (List Hotel) × Store :=
  let (enrollment, s) := findWithAddressByUserId s userId
  match enrollment with
  | none => (Except.error notFoundError, s)
  | some enrollment =>
    let (ticket, s) := findTicketByEnrollmentId s enrollment.id
    match ticket with
    | none => (Except.error notFoundError, s)
    | some ticket =>
      if ticket.status != TicketStatus.PAID || ticket.TicketType.isRemote
          || !ticket.TicketType.includesHotel then
        (Except.error paymentRequiredError, s)
      else
        let (hotels, s) := findHotels s
        if jsNotArray hotels then (Except.error notFoundError, s)
        else (Except.ok hotels, s)

/-- The service `getHotelRooms(hotelId)`: coerce the route parameter to a
number, fetch the matching hotel with rooms, and fail with NotFound when the
resulting collection is empty. -/
def getHotelRooms (s : Store) (hotelId : String) :
    Except ApplicationError (List HotelWithRooms) × Store :=
  let (hotelRooms, s) := findHotelRooms s (jsNumber hotelId)
  if hotelRooms.length == 0 then (Except.error notFoundError, s)
  else (Except.ok hotelRooms, s)

/-- An HTTP response: a status code and an optional body. -/
structure HttpResponse (α : Type) where
  status : Nat
  body : Option α
  deriving DecidableEq, Repr

/-- Error translation of the `getHotels` controller: `NotFoundError` becomes
404, `PaymentRequiredError` becomes 402, anything else 400. -/
def hotelsErrorStatus (e : ApplicationError) : Nat :=
  if e.name == "NotFoundError" then 404
  else if e.name == "PaymentRequiredError" then 402
  else 400

/-- Error translation of the `getHotelRooms` controller: `NotFoundError`
becomes 404, anything else 400. -/
def hotelRoomsErrorStatus (e : ApplicationError) : Nat :=
  if e.name == "NotFoundError" then 404
  else 400

/-- The `getHotels` controller: on service success respond 200 with the
hotels as body, on error translate the error name to a status. -/
def getHotelsController (s : Store) (userId : Int) :
    HttpResponse (List Hotel) × Store :=
  let (r, s) := getHotels s userId
  match r with
  | Except.ok hotels => ({ status := 200, body := some hotels }, s)
  | Except.error e => ({ status := hotelsErrorStatus e, body := none }, s)

/-- The `getHotelRooms` controller: on service success respond 200 with the
hotel-with-rooms collection as body, on error translate the error name to a
status. -/
def getHotelRoomsController (s : Store) (hotelId : String) :
    HttpResponse (List HotelWithRooms) × Store :=
  let (r, s) := getHotelRooms s hotelId
  match r with
  | Except.ok hotelRooms => ({ status := 200, body := some hotelRooms }, s)
  | Except.error e => ({ status := hotelRoomsErrorStatus e, body := none }, s)

/-- Sample ticket type: in person with hotel. -/
def sampleTicketType : TicketType := { id := 1, isRemote := false, includesHotel := true }

/-- Sample paid, in-person, hotel-including ticket for enrollment 1. -/
def sampleTicket : Ticket :=
  { id := 1, enrollmentId := 1, status := TicketStatus.PAID, TicketType := sampleTicketType }

/-- Sample paid ticket whose ticket type is remote. -/
def remoteTicket : Ticket :=
  { id := 2, enrollmentId := 1, status := TicketStatus.PAID,
    TicketType := { id := 2, isRemote := true, includesHotel := true } }

/-- Sample enrollment of user 1. -/
def sampleEnrollment : Enrollment := { id := 1, userId := 1 }

/-- Sample hotel record. -/
def sampleHotel : Hotel := { id := 1, name := "Beach Resort", image := "img" }

/-- Sample room of hotel 1. -/
def sampleRoom : Room := { id := 1, name := "101", capacity := 2, hotelId := 1 }

/-- Sample store: one eligible user, one hotel with one room. -/
def sampleStore : Store :=
  { enrollments := [sampleEnrollment], tickets := [sampleTicket],
    hotels := [sampleHotel], rooms := [sampleRoom] }

/-- Sample store whose only ticket is remote. -/
def remoteStore : Store :=
  { enrollments := [sampleEnrollment], tickets := [remoteTicket],
    hotels := [sampleHotel], rooms := [sampleRoom] }

/-- Sample store with an eligible user but not a single hotel record. -/
def eligibleNoHotelsStore : Store :=
  { enrollments := [sampleEnrollment], tickets := [sampleTicket], hotels := [], rooms := [] }

/-- Sample store with an enrollment but no ticket. -/
def noTicketStore : Store :=
  { enrollments := [sampleEnrollment], tickets := [], hotels := [sampleHotel], rooms := [] }

/-- Sample store with the same hotels and rooms as `sampleStore` but no
enrollments and no tickets. -/
def strippedStore : Store :=
  { enrollments := [], tickets := [], hotels := [sampleHotel], rooms := [sampleRoom] }

/-- Claim C1: when the enrollment and ticket lookups both succeed, `getHotels`
fails with PaymentRequired exactly when the ticket status is not paid, or the
ticket type is remote, or the ticket type does not include hotel; when all
three eligibility conditions hold simultaneously no PaymentRequired error is
raised. -/
theorem getHotels_paymentRequired_iff (s : Store) (userId : Int) (e : Enrollment) (t : Ticket)
    (he : (findWithAddressByUserId s userId).1 = some e)
    (ht : (findTicketByEnrollmentId s e.id).1 = some t) :
    (getHotels s userId).1 = Except.error paymentRequiredError ↔
      (t.status ≠ TicketStatus.PAID ∨ t.TicketType.isRemote = true ∨
        t.TicketType.includesHotel = false) := by
  simp only [findWithAddressByUserId] at he
  simp only [findTicketByEnrollmentId] at ht
  by_cases hb : (t.status != TicketStatus.PAID || t.TicketType.isRemote
      || !t.TicketType.includesHotel) = true
  · simp only [Bool.or_eq_true, bne_iff_ne, Bool.not_eq_true'] at hb
    simp [getHotels, findWithAddressByUserId, findTicketByEnrollmentId, findHotels,
      jsNotArray, he, ht, hb]
    tauto
  · simp only [Bool.or_eq_true, bne_iff_ne, Bool.not_eq_true'] at hb
    push_neg at hb
    simp [getHotels, findWithAddressByUserId, findTicketByEnrollmentId, findHotels,
      jsNotArray, he, ht, hb.1.1, hb.1.2, hb.2, notFoundError, paymentRequiredError]

/-- Witness for C1: in the store whose only ticket is paid but remote, the
lookups succeed and `getHotels` fails with PaymentRequired. -/
theorem getHotels_paymentRequired_iff_witness :
    ((findWithAddressByUserId remoteStore 1).1 = some sampleEnrollment ∧
      (findTicketByEnrollmentId remoteStore 1).1 = some remoteTicket) ∧
    (getHotels remoteStore 1).1 = Except.error paymentRequiredError :=
  ⟨⟨rfl, rfl⟩,
    (getHotels_paymentRequired_iff remoteStore 1 sampleEnrollment remoteTicket rfl rfl).mpr
      (Or.inr (Or.inl rfl))⟩

/-- Claim C2, failing input: for an eligible user (paid, in-person,
hotel-including ticket) and an empty hotel store, the service returns the
empty collection with success (HTTP 200) instead of failing with NotFound:
the source guard `if (!hotels)` never fires because `findMany` always returns
an array and every array is truthy in JavaScript. -/
theorem getHotels_emptyHotels_returns_empty :
    (getHotels eligibleNoHotelsStore 1).1 = Except.ok ([] : List Hotel) ∧
    (getHotelsController eligibleNoHotelsStore 1).1.status = 200 :=
  ⟨rfl, rfl⟩

/-- Claim C3: `getHotels` fails with NotFound when the enrollment lookup
returns nothing, and likewise when an enrollment exists but the ticket lookup
for its id returns nothing; in both cases the propagated error is the
NotFound of the first failing lookup, so no payment check fires. -/
theorem getHotels_notFound_on_missing_lookup :
    (∀ s userId, (findWithAddressByUserId s userId).1 = none →
      (getHotels s userId).1 = Except.error notFoundError) ∧
    (∀ s userId e, (findWithAddressByUserId s userId).1 = some e →
      (findTicketByEnrollmentId s e.id).1 = none →
      (getHotels s userId).1 = Except.error notFoundError) := by
  constructor
  · intro s userId h
    simp only [findWithAddressByUserId] at h
    simp [getHotels, findWithAddressByUserId, h]
  · intro s userId e he ht
    simp only [findWithAddressByUserId] at he
    simp only [findTicketByEnrollmentId] at ht
    simp [getHotels, findWithAddressByUserId, findTicketByEnrollmentId, he, ht]

/-- Witness for C3: user 2 has no enrollment in the sample store, and in the
no-ticket store user 1 has an enrollment but no ticket; both runs end in
NotFound. -/
theorem getHotels_notFound_on_missing_lookup_witness :
    ((findWithAddressByUserId sampleStore 2).1 = none ∧
      (getHotels sampleStore 2).1 = Except.error notFoundError) ∧
    ((findWithAddressByUserId noTicketStore 1).1 = some sampleEnrollment ∧
      (findTicketByEnrollmentId noTicketStore 1).1 = none ∧
      (getHotels noTicketStore 1).1 = Except.error notFoundError) :=
  ⟨⟨rfl, getHotels_notFound_on_missing_lookup.1 sampleStore 2 rfl⟩,
    ⟨rfl, rfl,
      getHotels_notFound_on_missing_lookup.2 noTicketStore 1 sampleEnrollment rfl rfl⟩⟩

/-- Claim C4: for a user with a paid, in-person, hotel-including ticket, when
at least one hotel record exists, `getHotels` succeeds and returns the entire
hotel table of the store, unmodified and unfiltered. -/
theorem getHotels_success (s : Store) (userId : Int) (e : Enrollment) (t : Ticket)
    (he : (findWithAddressByUserId s userId).1 = some e)
    (ht : (findTicketByEnrollmentId s e.id).1 = some t)
    (hpaid : t.status = TicketStatus.PAID)
    (hremote : t.TicketType.isRemote = false)
    (hhotel : t.TicketType.includesHotel = true)
    (hne : s.hotels ≠ []) :
    (getHotels s userId).1 = Except.ok s.hotels := by
  simp only [findWithAddressByUserId] at he
  simp only [findTicketByEnrollmentId] at ht
  simp [getHotels, findWithAddressByUserId, findTicketByEnrollmentId, findHotels,
    jsNotArray, he, ht, hpaid, hremote, hhotel]

/-- Witness for C4: the eligible user of the sample store receives the whole
hotel collection. -/
theorem getHotels_success_witness :
    (sampleStore.hotels ≠ [] ∧ sampleTicket.status = TicketStatus.PAID) ∧
    (getHotels sampleStore 1).1 = Except.ok sampleStore.hotels :=
  ⟨⟨List.cons_ne_nil _ _, rfl⟩,
    getHotels_success sampleStore 1 sampleEnrollment sampleTicket rfl rfl rfl rfl rfl
      (List.cons_ne_nil _ _)⟩

/-- Helper: filtering a hotel list with pairwise distinct ids by one of its
member ids keeps exactly that member. -/
theorem filter_match_eq_single (hid : Int) (l : List Hotel) (h : Hotel)
    (hnd : (l.map Hotel.id).Nodup) (hmem : h ∈ l) (hidEq : h.id = hid) :
    l.filter (fun x => numMatches (JsNum.num hid) x.id) = [h] := by
  induction l with
  | nil => cases hmem
  | cons b rest ih =>
    simp only [List.map_cons, List.nodup_cons, List.mem_map] at hnd
    rcases List.mem_cons.mp hmem with hb | hb
    · subst hb
      have hrest : rest.filter (fun x => numMatches (JsNum.num hid) x.id) = [] := by
        refine List.filter_eq_nil_iff.mpr ?_
        intro x hx
        simp only [numMatches, beq_iff_eq, Bool.not_eq_true]
        intro hcontra
        exact hnd.1 ⟨x, hx, by rw [hidEq, hcontra]⟩
      have hpos : numMatches (JsNum.num hid) h.id = true := by
        simp [numMatches, hidEq]
      simp only [List.filter_cons, hpos, if_true, hrest]
    · have hbne : numMatches (JsNum.num hid) b.id = false := by
        simp only [numMatches, beq_eq_false_iff_ne, ne_eq]
        intro hcontra
        exact hnd.1 ⟨h, hb, by rw [hidEq, hcontra]⟩
      simp [List.filter_cons, hbne, ih hnd.2 hb]

/-- Claim C5: for a route parameter denoting the id of a stored hotel (hotel
ids being pairwise distinct, as a primary key), `getHotelRooms` succeeds with
a collection of exactly one hotel entry, whose nested rooms are exactly the
rooms of that hotel in the store (so N rooms in the store give N nested
entries), each carrying the looked-up hotel id. -/
theorem getHotelRooms_valid (s : Store) (str : String) (hid : Int) (h : Hotel)
    (hnd : (s.hotels.map Hotel.id).Nodup)
    (hparse : jsNumber str = JsNum.num hid)
    (hmem : h ∈ s.hotels) (hidEq : h.id = hid) :
    ∃ entry : HotelWithRooms,
      (getHotelRooms s str).1 = Except.ok [entry] ∧
      entry.id = hid ∧
      entry.Rooms.length = (s.rooms.filter (fun r => r.hotelId == hid)).length ∧
      ∀ r ∈ entry.Rooms, r.hotelId = hid := by
  refine ⟨{ id := h.id, name := h.name, image := h.image,
            Rooms := s.rooms.filter (fun r => r.hotelId == h.id) }, ?_, hidEq, ?_, ?_⟩
  · simp [getHotelRooms, findHotelRooms, hparse,
      filter_match_eq_single hid s.hotels h hnd hmem hidEq]
  · simp [hidEq]
  · intro r hr
    have := List.of_mem_filter hr
    simpa [hidEq] using this

/-- Witness for C5: looking up hotel 1 of the sample store yields one entry
with its one room. -/
theorem getHotelRooms_valid_witness :
    (jsNumber "1" = JsNum.num 1 ∧ sampleHotel ∈ sampleStore.hotels) ∧
    ∃ entry : HotelWithRooms,
      (getHotelRooms sampleStore "1").1 = Except.ok [entry] ∧
      entry.id = 1 ∧
      entry.Rooms.length = (sampleStore.rooms.filter (fun r => r.hotelId == 1)).length ∧
      ∀ r ∈ entry.Rooms, r.hotelId = 1 :=
  ⟨⟨by decide, by decide⟩,
    getHotelRooms_valid sampleStore "1" 1 sampleHotel (by decide) (by decide) (by decide) rfl⟩

/-- Claim C6: whenever the coerced route parameter matches no stored hotel,
`getHotelRooms` fails with NotFound; in particular the NaN sentinel produced
by every non-numeric input matches no record at all. -/
theorem getHotelRooms_notFound_on_no_match :
    (∀ s str, (∀ hl ∈ s.hotels, numMatches (jsNumber str) hl.id = false) →
      (getHotelRooms s str).1 = Except.error notFoundError) ∧
    (∀ n : Int, numMatches JsNum.nan n = false) := by
  constructor
  · intro s str hnone
    have hfil : s.hotels.filter (fun h => numMatches (jsNumber str) h.id) = [] :=
      List.filter_eq_nil_iff.mpr (by intro a ha; simp [hnone a ha])
    simp [getHotelRooms, findHotelRooms, hfil]
  · intro n
    rfl

/-- Witness for C6: the non-numeric parameter abc matches no hotel of the
sample store and the lookup ends in NotFound. -/
theorem getHotelRooms_notFound_on_no_match_witness :
    (∀ hl ∈ sampleStore.hotels, numMatches (jsNumber "abc") hl.id = false) ∧
    (getHotelRooms sampleStore "abc").1 = Except.error notFoundError :=
  ⟨by decide, getHotelRooms_notFound_on_no_match.1 sampleStore "abc" (by decide)⟩

/-- Claim C7: the controllers translate service outcomes to HTTP statuses by
kind: success becomes 200 with the service result as body, NotFound becomes
404, PaymentRequired becomes 402 (in the one controller whose service can
raise it), and an error of any other name becomes 400. -/
theorem controllers_translate_errors :
    (∀ s userId v, (getHotels s userId).1 = Except.ok v →
      (getHotelsController s userId).1 = { status := 200, body := some v }) ∧
    (∀ s userId, (getHotels s userId).1 = Except.error notFoundError →
      (getHotelsController s userId).1.status = 404) ∧
    (∀ s userId, (getHotels s userId).1 = Except.error paymentRequiredError →
      (getHotelsController s userId).1.status = 402) ∧
    (∀ s str v, (getHotelRooms s str).1 = Except.ok v →
      (getHotelRoomsController s str).1 = { status := 200, body := some v }) ∧
    (∀ s str, (getHotelRooms s str).1 = Except.error notFoundError →
      (getHotelRoomsController s str).1.status = 404) ∧
    (∀ e : ApplicationError, e.name ≠ "NotFoundError" → e.name ≠ "PaymentRequiredError" →
      hotelsErrorStatus e = 400 ∧ hotelRoomsErrorStatus e = 400) := by
  refine ⟨?_, ?_, ?_, ?_, ?_, ?_⟩
  · intro s userId v h
    rcases hEq : getHotels s userId with ⟨r, s2⟩
    rw [hEq] at h
    simp only at h
    subst h
    simp [getHotelsController, hEq]
  · intro s userId h
    rcases hEq : getHotels s userId with ⟨r, s2⟩
    rw [hEq] at h
    simp only at h
    subst h
    simp [getHotelsController, hEq, hotelsErrorStatus, notFoundError]
  · intro s userId h
    rcases hEq : getHotels s userId with ⟨r, s2⟩
    rw [hEq] at h
    simp only at h
    subst h
    simp [getHotelsController, hEq, hotelsErrorStatus, paymentRequiredError]
  · intro s str v h
    rcases hEq : getHotelRooms s str with ⟨r, s2⟩
    rw [hEq] at h
    simp only at h
    subst h
    simp [getHotelRoomsController, hEq]
  · intro s str h
    rcases hEq : getHotelRooms s str with ⟨r, s2⟩
    rw [hEq] at h
    simp only at h
    subst h
    simp [getHotelRoomsController, hEq, hotelRoomsErrorStatus, notFoundError]
  · intro e h1 h2
    constructor <;> simp [hotelsErrorStatus, hotelRoomsErrorStatus, h1, h2]

/-- Witness for C7: in the store whose only ticket is remote, the service
raises PaymentRequired and the controller answers 402. -/
theorem controllers_translate_errors_witness :
    (getHotels remoteStore 1).1 = Except.error paymentRequiredError ∧
    (getHotelsController remoteStore 1).1.status = 402 :=
  ⟨rfl, controllers_translate_errors.2.2.1 remoteStore 1 rfl⟩

/-- Claim C8: the whole hotels path is read-only: for every input and every
starting store, the store after `getHotels` or `getHotelRooms` (service or
controller, success or failure) is the store before it. -/
theorem hotels_path_read_only (s : Store) (userId : Int) (str : String) :
    (getHotels s userId).2 = s ∧ (getHotelRooms s str).2 = s ∧
    (getHotelsController s userId).2 = s ∧ (getHotelRoomsController s str).2 = s := by
  have hg : (getHotels s userId).2 = s := by
    simp only [getHotels, findWithAddressByUserId, findTicketByEnrollmentId, findHotels]
    split
    · rfl
    · split
      · rfl
      · split
        · rfl
        · split <;> rfl
  have hr : (getHotelRooms s str).2 = s := by
    simp only [getHotelRooms, findHotelRooms]
    split <;> rfl
  refine ⟨hg, hr, ?_, ?_⟩
  · rcases hEq : getHotels s userId with ⟨r, s2⟩
    have hs2 : s2 = s := by rw [hEq] at hg; exact hg
    subst hs2
    simp only [getHotelsController, hEq]
    cases r <;> rfl
  · rcases hEq : getHotelRooms s str with ⟨r, s2⟩
    have hs2 : s2 = s := by rw [hEq] at hr; exact hr
    subst hs2
    simp only [getHotelRoomsController, hEq]
    cases r <;> rfl

/-- Claim C9: the outcome of `getHotelRooms` depends only on its argument and
the hotel and room tables: any two stores agreeing on those tables give the
same result, however their enrollments and tickets differ; and
`getHotelRooms` never fails with PaymentRequired. -/
theorem getHotelRooms_depends_only_on_hotels_and_rooms :
    (∀ s₁ s₂ str, s₁.hotels = s₂.hotels → s₁.rooms = s₂.rooms →
      (getHotelRooms s₁ str).1 = (getHotelRooms s₂ str).1) ∧
    (∀ s str, (getHotelRooms s str).1 ≠ Except.error paymentRequiredError) := by
  constructor
  · intro s₁ s₂ str hh hr
    simp only [getHotelRooms, findHotelRooms, hh, hr]
    split <;> rfl
  · intro s str h
    simp only [getHotelRooms, findHotelRooms] at h
    split at h
    · simp [notFoundError, paymentRequiredError] at h
    · simp at h

/-- Witness for C9: the sample store and its copy stripped of enrollments and
tickets give the same answer for hotel 1. -/
theorem getHotelRooms_depends_only_on_hotels_and_rooms_witness :
    (sampleStore.hotels = strippedStore.hotels ∧ sampleStore.rooms = strippedStore.rooms) ∧
    (getHotelRooms sampleStore "1").1 = (getHotelRooms strippedStore "1").1 :=
  ⟨⟨rfl, rfl⟩,
    getHotelRooms_depends_only_on_hotels_and_rooms.1 sampleStore strippedStore "1" rfl rfl⟩

/-- Claim C10: both operations (and their controllers) are deterministic: two
runs on the same store and input are the same run of a pure function, so the
outcomes coincide. -/
theorem hotels_operations_deterministic (s : Store) (userId : Int) (str : String) :
    getHotels s userId = getHotels s userId ∧
    getHotelRooms s str = getHotelRooms s str ∧
    getHotelsController s userId = getHotelsController s userId ∧
    getHotelRoomsController s str = getHotelRoomsController s str :=
  ⟨rfl, rfl, rfl, rfl⟩
